import Mathlib

/-!
Verification of the data-quality test module (`evidently/tests/data_quality_tests.py`)
against its natural-language specification.

Numeric values are embedded as rationals (`ℚ`); Python `None` becomes `Option`;
a raised Python exception becomes `Except.error` with the exception message.
Dictionaries keyed by column name become association lists with `List.lookup`.
Float string formatting (Python `:.3g`) is abstracted as `toString` of the
rational; the surrounding text of every message is kept verbatim.
-/

namespace Evidently

/-- Single-quote character (ASCII 39), used in several source messages. -/
def sq : String := String.singleton (Char.ofNat 39)

/-- Modelled from the spec: the four terminal statuses of a `TestResult`
(section 3); the `TestResult` class lives in `base_test.py`, which is not
part of the sources. -/
inductive TestStatus
  | SUCCESS
  | FAIL
  | ERROR
  | SKIPPED
deriving DecidableEq, Repr

/-- Modelled from the spec: the immutable `TestResult` record of section 3
(name, description, status, groups); from missing `base_test.py`. -/
structure TestResult where
  name : String
  description : String
  status : TestStatus
  groups : List (String × String)
deriving DecidableEq, Repr

/-- Modelled from the spec: `TestResult.set_status` of the missing
`base_test.py` assigns the given status and, when a description is given,
replaces the description. -/
def TestResult.set_status (r : TestResult) (s : TestStatus) (d : Option String) : TestResult :=
  { r with status := s, description := d.getD r.description }

/-- Modelled from the spec: `TestResult.mark_as_fail` of the missing
`base_test.py`; marks the result with the FAIL status of section 3. -/
def TestResult.mark_as_fail (r : TestResult) (d : Option String) : TestResult :=
  r.set_status .FAIL d

/-- Modelled from the spec: `TestResult.mark_as_error` of the missing
`base_test.py`; marks the result with the ERROR status of section 3. -/
def TestResult.mark_as_error (r : TestResult) (d : Option String) : TestResult :=
  r.set_status .ERROR d

/-- Modelled from the spec: the approximation wrapper of section 3 carries
either an absolute or a relative tolerance (exactly one of the two). The
source also allows `approx(0)` with no explicit tolerance (`tests/utils.py`
is not part of the sources; its default tolerances are unspecified), kept
as a distinct `defaultTol` tag. -/
inductive Tolerance
  | absolute (t : ℚ)
  | relative (r : ℚ)
  | defaultTol
deriving DecidableEq, Repr

/-- Modelled from the spec: an approximate value wraps the expected value
(possibly Python `None`, as the source never guards the wrapped statistic)
together with its tolerance; from missing `tests/utils.py` (`approx` /
`ApproxValue`). -/
structure ApproxValue where
  value : Option ℚ
  tol : Tolerance
deriving DecidableEq, Repr

/-- Source `approx(value, absolute=a)`. -/
def approxAbsolute (v : ℚ) (a : ℚ) : ApproxValue := ⟨some v, .absolute a⟩

/-- Source `approx(value, relative=r)`; the second positional argument of
`approx` is the relative tolerance, so `approx(value, 0.1)` also lands here. -/
def approxRelative (v : ℚ) (r : ℚ) : ApproxValue := ⟨some v, .relative r⟩

/-- Source `approx(value)` with no tolerance argument. -/
def approxDefault (v : ℚ) : ApproxValue := ⟨some v, .defaultTol⟩

/-- Modelled from the spec: approximate equality means
`|actual - expected| <= tolerance`, with the relative tolerance scaled by
`|expected|` (section 3). A `None` expected value fails with a TypeError
at evaluation time, as Python arithmetic on `None` would. -/
def ApproxValue.checkEq (a : ApproxValue) (actual : ℚ) : Except String Bool :=
  match a.value with
  | none => .error "TypeError: unsupported operand for None"
  | some v =>
      let tol : ℚ :=
        match a.tol with
        | .absolute t => t
        | .relative r => r * |v|
        | .defaultTol => 0
      .ok (decide (|actual - v| ≤ tol))

/-- An `eq`/`not_eq` condition field holds either a plain value (Python
`eq=0`) or an approximation wrapper (Python `eq=approx(...)`). -/
inductive EqValue
  | plain (q : ℚ)
  | approxVal (a : ApproxValue)
deriving DecidableEq, Repr

/-- Equality check against an `eq`/`not_eq` field. -/
def EqValue.checkEq (e : EqValue) (actual : ℚ) : Except String Bool :=
  match e with
  | .plain q => .ok (decide (actual = q))
  | .approxVal a => a.checkEq actual

/-- Modelled from the spec: the `Condition` record of section 3 — a
conjunction of the eight optional fields; from missing `base_test.py`
(`TestValueCondition`). -/
structure TestValueCondition where
  eq : Option EqValue
  gt : Option ℚ
  gte : Option ℚ
  is_in : Option (List ℚ)
  lt : Option ℚ
  lte : Option ℚ
  not_eq : Option EqValue
  not_in : Option (List ℚ)
deriving DecidableEq, Repr

/-- The condition with no field set ("no explicit threshold configured"). -/
def emptyCondition : TestValueCondition :=
  ⟨none, none, none, none, none, none, none, none⟩

/-- Modelled from the spec: `has_condition` is true exactly when any field
is set (section 4.2 step 1: "any field set"). -/
def TestValueCondition.has_condition (c : TestValueCondition) : Bool :=
  c.eq.isSome || c.gt.isSome || c.gte.isSome || c.is_in.isSome ||
    c.lt.isSome || c.lte.isSome || c.not_eq.isSome || c.not_in.isSome

/-- Modelled from the spec: condition evaluation (section 4.2 step 5) —
every set field must individually pass; all are conjoined. -/
def TestValueCondition.check_value (c : TestValueCondition) (v : ℚ) : Except String Bool := do
  let passEq ← match c.eq with
    | none => pure true
    | some e => e.checkEq v
  let passNotEq ← match c.not_eq with
    | none => pure true
    | some e => do pure (!(← e.checkEq v))
  let passGt := match c.gt with
    | none => true
    | some q => decide (q < v)
  let passGte := match c.gte with
    | none => true
    | some q => decide (q ≤ v)
  let passLt := match c.lt with
    | none => true
    | some q => decide (v < q)
  let passLte := match c.lte with
    | none => true
    | some q => decide (v ≤ q)
  let passIsIn := match c.is_in with
    | none => true
    | some l => l.contains v
  let passNotIn := match c.not_in with
    | none => true
    | some l => !(l.contains v)
  pure (passEq && passNotEq && passGt && passGte && passLt && passLte && passIsIn && passNotIn)

/-- A per-feature statistic value: numeric or string (the source checks
`isinstance(..., str)` on min/max and rejects strings). -/
inductive StatValue
  | num (q : ℚ)
  | str (s : String)
deriving DecidableEq, Repr

/-- Modelled from the spec: the per-feature statistics record exposed by the
data-quality metric result, with the fields this module reads; the metric
implementation (`FeatureQualityStats`) is not part of the sources. All
fields are optional, mirroring Python attributes that may be `None`. -/
structure FeatureQualityStats where
  min : Option StatValue
  max : Option StatValue
  mean : Option ℚ
  std : Option ℚ
  percentile_50 : Option ℚ
  unique_count : Option ℚ
  unique_percentage : Option ℚ
  most_common_value_percentage : Option ℚ
deriving DecidableEq, Repr

/-- The per-column dictionary returned by `get_all_features()`. -/
abbrev FeaturesStats := List (String × FeatureQualityStats)

/-- Modelled from the spec: the result of `DataQualityMetrics` as read by
this module — current feature statistics plus optional reference feature
statistics; the metric class is not part of the sources. -/
structure DataQualityMetricsResult where
  features_stats : FeaturesStats
  reference_features_stats : Option FeaturesStats
deriving DecidableEq, Repr

/-- Modelled from the spec: the per-dataset part of the
`DataQualityCorrelationMetrics` result, with the fields this module reads;
the metric class is not part of the sources. -/
structure CorrelationStats where
  target_prediction_correlation : Option ℚ
  abs_max_num_features_correlation : Option ℚ
  abs_max_target_features_correlation : Option ℚ
  abs_max_prediction_features_correlation : Option ℚ
  correlation_matrix : List (List ℚ)
deriving DecidableEq, Repr

/-- Modelled from the spec: the `DataQualityCorrelationMetrics` result —
the current part plus the optional reference part. -/
structure DataQualityCorrelationMetricsResult where
  current : CorrelationStats
  reference : Option CorrelationStats
deriving DecidableEq, Repr

/-- Modelled from the spec: the `DataQualityValueQuantileMetrics` result,
with the fields this module reads (current quantile value, optional
reference quantile value). -/
structure DataQualityValueQuantileMetricsResult where
  value : ℚ
  ref_value : Option ℚ
deriving DecidableEq, Repr

/-- Modelled from the spec: the by-feature grouping dimension key of
section 4.4 (`GroupingTypes.ByFeature.id` of the missing `base_test.py`);
the spec example is `\x7b"by_feature": "age"\x7d`. -/
def byFeatureId : String := "by_feature"

/-- Message raised by the per-feature tests when neither a condition nor
reference data is available (source lines 518, 575, 630, 683, 736, 830, 1498). -/
def noParamsMsg : String :=
  "Neither required test parameters nor reference data has been provided."

/-- Message raised when a min/max statistic is a string (source lines 516, 573). -/
def shouldBeNumericalMsg (column_name : String) : String :=
  column_name ++ " should be numerical or bool"

/-- Python KeyError from indexing the reference feature dictionary with a
column it does not hold. -/
def keyErrorMsg (column_name : String) : String :=
  "KeyError: " ++ column_name

/-- Source `TestTargetPredictionCorrelation.get_condition` (lines 157-166):
explicit condition verbatim; else `eq=approx(reference value, absolute=0.25)`
when the reference target-prediction correlation is defined; else `gt=0`. -/
def TestTargetPredictionCorrelation.get_condition
    (condition : TestValueCondition) (r : DataQualityCorrelationMetricsResult) :
    TestValueCondition :=
  if condition.has_condition then condition
  else
    match r.reference with
    | some ref =>
        match ref.target_prediction_correlation with
        | some value => { emptyCondition with eq := some (.approxVal (approxAbsolute value (1/4))) }
        | none => { emptyCondition with gt := some 0 }
    | none => { emptyCondition with gt := some 0 }

/-- Source `TestHighlyCorrelatedFeatures.get_condition` (lines 183-192):
explicit condition verbatim; else `eq=approx(reference value, relative=0.1)`
when the reference max feature correlation is defined; else `lt=0.9`. -/
def TestHighlyCorrelatedFeatures.get_condition
    (condition : TestValueCondition) (r : DataQualityCorrelationMetricsResult) :
    TestValueCondition :=
  if condition.has_condition then condition
  else
    match r.reference with
    | some ref =>
        match ref.abs_max_num_features_correlation with
        | some value => { emptyCondition with eq := some (.approxVal (approxRelative value (1/10))) }
        | none => { emptyCondition with lt := some (9/10) }
    | none => { emptyCondition with lt := some (9/10) }

/-- Source `TestTargetFeaturesCorrelations.get_condition` (lines 241-251). -/
def TestTargetFeaturesCorrelations.get_condition
    (condition : TestValueCondition) (r : DataQualityCorrelationMetricsResult) :
    TestValueCondition :=
  if condition.has_condition then condition
  else
    match r.reference with
    | some ref =>
        match ref.abs_max_target_features_correlation with
        | some value => { emptyCondition with eq := some (.approxVal (approxRelative value (1/10))) }
        | none => { emptyCondition with lt := some (9/10) }
    | none => { emptyCondition with lt := some (9/10) }

/-- Source `TestPredictionFeaturesCorrelations.get_condition` (lines 310-323). -/
def TestPredictionFeaturesCorrelations.get_condition
    (condition : TestValueCondition) (r : DataQualityCorrelationMetricsResult) :
    TestValueCondition :=
  if condition.has_condition then condition
  else
    match r.reference with
    | some ref =>
        match ref.abs_max_prediction_features_correlation with
        | some value => { emptyCondition with eq := some (.approxVal (approxRelative value (1/10))) }
        | none => { emptyCondition with lt := some (9/10) }
    | none => { emptyCondition with lt := some (9/10) }

/-- Source `TestCorrelationChanges.get_condition` (lines 413-417): explicit
condition verbatim; else the fixed `eq=0`. -/
def TestCorrelationChanges.get_condition (condition : TestValueCondition) :
    TestValueCondition :=
  if condition.has_condition then condition
  else { emptyCondition with eq := some (.plain 0) }

/-- Source `TestCorrelationChanges.calculate_value_for_test` (lines 419-425):
raises when the reference part is absent; otherwise counts the entries of
the element-wise difference of the two correlation matrices whose absolute
value exceeds `corr_diff`, halved. -/
def TestCorrelationChanges.calculate_value_for_test (corr_diff : ℚ)
    (r : DataQualityCorrelationMetricsResult) : Except String ℚ :=
  match r.reference with
  | none => .error "Reference should be present"
  | some ref =>
      let rowCount : List ℚ → List ℚ → ℕ := fun xs ys =>
        (List.zipWith (fun x y => if corr_diff < |x - y| then (1 : ℕ) else 0) xs ys).sum
      let total : ℕ :=
        (List.zipWith rowCount ref.correlation_matrix r.current.correlation_matrix).sum
      .ok ((total : ℚ) / 2)

/-- Source `TestFeatureValueMin.get_condition` (lines 507-518): explicit
condition verbatim; else `gte=` the reference minimum (raising on a string
minimum); else raise demanding parameters or reference data. -/
def TestFeatureValueMin.get_condition (column_name : String)
    (condition : TestValueCondition) (r : DataQualityMetricsResult) :
    Except String TestValueCondition :=
  if condition.has_condition then .ok condition
  else
    match r.reference_features_stats with
    | some refStats =>
        match refStats.lookup column_name with
        | none => .error (keyErrorMsg column_name)
        | some st =>
            match st.min with
            | some (.str _) => .error (shouldBeNumericalMsg column_name)
            | some (.num q) => .ok { emptyCondition with gte := some q }
            | none => .ok { emptyCondition with gte := none }
    | none => .error noParamsMsg

/-- Source `TestFeatureValueMax.get_condition` (lines 566-575): as for the
minimum, with `lte=` the reference maximum. -/
def TestFeatureValueMax.get_condition (column_name : String)
    (condition : TestValueCondition) (r : DataQualityMetricsResult) :
    Except String TestValueCondition :=
  if condition.has_condition then .ok condition
  else
    match r.reference_features_stats with
    | some refStats =>
        match refStats.lookup column_name with
        | none => .error (keyErrorMsg column_name)
        | some st =>
            match st.max with
            | some (.str _) => .error (shouldBeNumericalMsg column_name)
            | some (.num q) => .ok { emptyCondition with lte := some q }
            | none => .ok { emptyCondition with lte := none }
    | none => .error noParamsMsg

/-- Source `TestFeatureValueMean.get_condition` (lines 624-630):
`eq=approx(reference mean, 0.1)` (relative) when reference statistics are
present; else raise. -/
def TestFeatureValueMean.get_condition (column_name : String)
    (condition : TestValueCondition) (r : DataQualityMetricsResult) :
    Except String TestValueCondition :=
  if condition.has_condition then .ok condition
  else
    match r.reference_features_stats with
    | some refStats =>
        match refStats.lookup column_name with
        | none => .error (keyErrorMsg column_name)
        | some st => .ok { emptyCondition with eq := some (.approxVal ⟨st.mean, .relative (1/10)⟩) }
    | none => .error noParamsMsg

/-- Source `TestFeatureValueMedian.get_condition` (lines 675-683):
`eq=approx(reference 50th percentile, 0.1)` when reference statistics are
present; else raise. -/
def TestFeatureValueMedian.get_condition (column_name : String)
    (condition : TestValueCondition) (r : DataQualityMetricsResult) :
    Except String TestValueCondition :=
  if condition.has_condition then .ok condition
  else
    match r.reference_features_stats with
    | some refStats =>
        match refStats.lookup column_name with
        | none => .error (keyErrorMsg column_name)
        | some st => .ok { emptyCondition with eq := some (.approxVal ⟨st.percentile_50, .relative (1/10)⟩) }
    | none => .error noParamsMsg

/-- Source `TestFeatureValueStd.get_condition` (lines 730-736):
`eq=approx(reference std, 0.1)` when reference statistics are present;
else raise. -/
def TestFeatureValueStd.get_condition (column_name : String)
    (condition : TestValueCondition) (r : DataQualityMetricsResult) :
    Except String TestValueCondition :=
  if condition.has_condition then .ok condition
  else
    match r.reference_features_stats with
    | some refStats =>
        match refStats.lookup column_name with
        | none => .error (keyErrorMsg column_name)
        | some st => .ok { emptyCondition with eq := some (.approxVal ⟨st.std, .relative (1/10)⟩) }
    | none => .error noParamsMsg

/-- Source `TestNumberOfUniqueValues.get_condition` (lines 779-788):
`eq=approx(reference unique count, relative=0.1)` when reference statistics
are present; else the fixed `gt=1`. -/
def TestNumberOfUniqueValues.get_condition (column_name : String)
    (condition : TestValueCondition) (r : DataQualityMetricsResult) :
    Except String TestValueCondition :=
  if condition.has_condition then .ok condition
  else
    match r.reference_features_stats with
    | some refStats =>
        match refStats.lookup column_name with
        | none => .error (keyErrorMsg column_name)
        | some st => .ok { emptyCondition with eq := some (.approxVal ⟨st.unique_count, .relative (1/10)⟩) }
    | none => .ok { emptyCondition with gt := some 1 }

/-- Source `TestUniqueValuesShare.get_condition` (lines 818-830):
`eq=approx(reference unique percentage / 100, relative=0.1)` when reference
statistics are present and the percentage is defined; else raise. -/
def TestUniqueValuesShare.get_condition (column_name : String)
    (condition : TestValueCondition) (r : DataQualityMetricsResult) :
    Except String TestValueCondition :=
  if condition.has_condition then .ok condition
  else
    match r.reference_features_stats with
    | some refStats =>
        match refStats.lookup column_name with
        | none => .error (keyErrorMsg column_name)
        | some st =>
            match st.unique_percentage with
            | some up => .ok { emptyCondition with eq := some (.approxVal (approxRelative (up / 100) (1/10))) }
            | none => .error noParamsMsg
    | none => .error noParamsMsg

/-- Source `TestMostCommonValueShare.get_condition` (lines 865-877):
`eq=approx(reference most-common-value percentage / 100, relative=0.1)` when
reference statistics are present and the percentage is defined; in every
other case the fixed `lt=0.8`. -/
def TestMostCommonValueShare.get_condition (column_name : String)
    (condition : TestValueCondition) (r : DataQualityMetricsResult) :
    Except String TestValueCondition :=
  if condition.has_condition then .ok condition
  else
    match r.reference_features_stats with
    | some refStats =>
        match refStats.lookup column_name with
        | none => .error (keyErrorMsg column_name)
        | some st =>
            match st.most_common_value_percentage with
            | some mc => .ok { emptyCondition with eq := some (.approxVal (approxRelative (mc / 100) (1/10))) }
            | none => .ok { emptyCondition with lt := some (4/5) }
    | none => .ok { emptyCondition with lt := some (4/5) }

/-- Source `TestNumberOfOutRangeValues.get_condition` (lines 1175-1178):
explicit condition verbatim; else the fixed `eq=approx(0)`. -/
def TestNumberOfOutRangeValues.get_condition (condition : TestValueCondition) :
    TestValueCondition :=
  if condition.has_condition then condition
  else { emptyCondition with eq := some (.approxVal (approxDefault 0)) }

/-- Source `TestShareOfOutRangeValues.get_condition` (lines 1226-1229). -/
def TestShareOfOutRangeValues.get_condition (condition : TestValueCondition) :
    TestValueCondition :=
  if condition.has_condition then condition
  else { emptyCondition with eq := some (.approxVal (approxDefault 0)) }

/-- Source `TestNumberOfOutListValues.get_condition` (lines 1393-1396). -/
def TestNumberOfOutListValues.get_condition (condition : TestValueCondition) :
    TestValueCondition :=
  if condition.has_condition then condition
  else { emptyCondition with eq := some (.approxVal (approxDefault 0)) }

/-- Source `TestShareOfOutListValues.get_condition` (lines 1426-1429). -/
def TestShareOfOutListValues.get_condition (condition : TestValueCondition) :
    TestValueCondition :=
  if condition.has_condition then condition
  else { emptyCondition with eq := some (.approxVal (approxDefault 0)) }

/-- Source `TestValueQuantile.get_condition` (lines 1492-1498): explicit
condition verbatim; else `eq=approx(reference quantile value, 0.1)` when
defined; else raise. -/
def TestValueQuantile.get_condition (condition : TestValueCondition)
    (r : DataQualityValueQuantileMetricsResult) : Except String TestValueCondition :=
  if condition.has_condition then .ok condition
  else
    match r.ref_value with
    | some rv => .ok { emptyCondition with eq := some (.approxVal (approxRelative rv (1/10))) }
    | none => .error noParamsMsg

/-- Modelled from the spec: the generic `BaseCheckValueTest.check` algorithm
of section 4.2 (missing `base_test.py`): resolve the condition (a raised
configuration error propagates), ERROR when the computed value is absent,
otherwise SUCCESS exactly when every set condition field passes; the
subclass grouping metadata of section 4.4 is attached to the result as
pure metadata. -/
def baseCheckValue (name : String) (groups : List (String × String))
    (resolvedCondition : Except String TestValueCondition)
    (value : Option ℚ) (description : String) : Except String TestResult :=
  match resolvedCondition with
  | .error e => .error e
  | .ok condition =>
      match value with
      | none =>
          .ok { name := name, description := "No value for the test",
                status := .ERROR, groups := groups }
      | some v =>
          match condition.check_value v with
          | .error e => .error e
          | .ok passed =>
              .ok { name := name, description := description,
                    status := if passed then .SUCCESS else .FAIL, groups := groups }

/-- Source message of line 492: Feature was not found. -/
def featureNotFoundMsg (column_name : String) : String :=
  "Feature " ++ sq ++ column_name ++ sq ++ " was not found"

/-- Source message of line 498: no value for the feature. -/
def noValueForFeatureMsg (column_name : String) : String :=
  "No value for the feature " ++ sq ++ column_name ++ sq

/-- Source `BaseFeatureDataQualityMetricsTest.check` (lines 487-501): start
from a SKIPPED result; when the column is not among the current feature
statistics, `mark_as_fail` with the feature-not-found message and return;
otherwise run the generic check (`super().check()`, modelled from the spec
as `baseCheckValue`), then `mark_as_error` when the computed value is
absent. The subclass virtuals are passed as the resolved condition, the
computed value and the rendered description. -/
def BaseFeatureDataQualityMetricsTest.check (name column_name : String)
    (r : DataQualityMetricsResult)
    (resolvedCondition : Except String TestValueCondition)
    (value : Option ℚ) (description : String) : Except String TestResult :=
  let result : TestResult :=
    { name := name, description := "The test was not launched",
      status := .SKIPPED, groups := [] }
  match r.features_stats.lookup column_name with
  | none => .ok (result.mark_as_fail (some (featureNotFoundMsg column_name)))
  | some _ =>
      match baseCheckValue name [] resolvedCondition value description with
      | .error e => .error e
      | .ok base =>
          match value with
          | none => .ok (base.mark_as_error (some (noValueForFeatureMsg column_name)))
          | some _ => .ok base

/-- Source `BaseFeatureDataQualityMetricsTest.groups` (lines 482-485). -/
def BaseFeatureDataQualityMetricsTest.groups (column_name : String) :
    List (String × String) :=
  [(byFeatureId, column_name)]

/-- Source `BaseDataQualityValueRangeMetricsTest.groups` (lines 1168-1169). -/
def BaseDataQualityValueRangeMetricsTest.groups (column_name : String) :
    List (String × String) :=
  [(byFeatureId, column_name)]

/-- Source `BaseDataQualityValueListMetricsTest.groups` (lines 1386-1387). -/
def BaseDataQualityValueListMetricsTest.groups (column_name : String) :
    List (String × String) :=
  [(byFeatureId, column_name)]

/-- Source `TestValueQuantile.groups` (lines 1489-1490). -/
def TestValueQuantile.groups (column_name : String) : List (String × String) :=
  [(byFeatureId, column_name)]

/-- The parameters a `TestMeanInNSigmas` instance holds (source lines
929-943): the bound column and the sigma multiplier. -/
structure TestMeanInNSigmas where
  column_name : String
  n_sigmas : ℚ
deriving DecidableEq, Repr

/-- Source display name of `TestMeanInNSigmas` (line 931). -/
def meanInNSigmasName : String := "Mean Value Stability"

/-- Description of source lines 969-979 (same text for SUCCESS and FAIL). -/
def meanInNSigmasRangeDesc (column_name : String) (current_mean l r : ℚ) : String :=
  "The mean value of the column **" ++ column_name ++ "** is " ++ toString current_mean ++
    ". The expected range is from " ++ toString l ++ " to " ++ toString r

/-- Source `TestMeanInNSigmas.check` (lines 945-987): raises when the
reference statistics are absent; ERROR when the column is missing from the
current or the reference statistics; otherwise SUCCESS exactly when the
current mean lies strictly between `reference mean ± n_sigmas * reference
std`. A `None` mean or std reaching the arithmetic is a Python TypeError. -/
def TestMeanInNSigmas.check (t : TestMeanInNSigmas) (r : DataQualityMetricsResult) :
    Except String TestResult :=
  match r.reference_features_stats with
  | none => .error "Reference should be present"
  | some refStats =>
      match r.features_stats.lookup t.column_name with
      | none =>
          .ok { name := meanInNSigmasName,
                description := "Column " ++ t.column_name ++ " should be in current data",
                status := .ERROR, groups := [(byFeatureId, t.column_name)] }
      | some st =>
          match refStats.lookup t.column_name with
          | none =>
              .ok { name := meanInNSigmasName,
                    description := "Column " ++ t.column_name ++ " should be in reference data",
                    status := .ERROR, groups := [(byFeatureId, t.column_name)] }
          | some refSt =>
              match st.mean, refSt.mean, refSt.std with
              | some current_mean, some reference_mean, some reference_std =>
                  let sigmas_value := reference_std * t.n_sigmas
                  let left_condition := reference_mean - sigmas_value
                  let right_condition := reference_mean + sigmas_value
                  .ok { name := meanInNSigmasName,
                        description :=
                          meanInNSigmasRangeDesc t.column_name current_mean
                            left_condition right_condition,
                        status :=
                          if left_condition < current_mean ∧ current_mean < right_condition
                          then .SUCCESS else .FAIL,
                        groups := [(byFeatureId, t.column_name)] }
              | _, _, _ => .error "TypeError: unsupported operand for None"

/-- Modelled from the spec: the column catalogue handed to a test generator
(section 3 / `DatasetColumns` of the missing `utils/data_operations.py`) —
the feature-name lists this module enumerates. -/
structure DatasetColumns where
  num_feature_names : List String
  cat_feature_names : List String
deriving DecidableEq, Repr

/-- Source `TestNumColumnsMeanInNSigmas.generate_tests` (lines 1055-1056):
one `TestMeanInNSigmas(column_name=name, n_sigmas=2)` per numeric feature
name, in catalogue order. -/
def TestNumColumnsMeanInNSigmas.generate_tests (columns_info : DatasetColumns) :
    List TestMeanInNSigmas :=
  columns_info.num_feature_names.map (fun name => { column_name := name, n_sigmas := 2 })

/-- Modelled from the spec: the result of `DataQualityValueRangeMetrics` as
read by this module (the metric class is not part of the sources). -/
structure DataQualityValueRangeMetricsResult where
  number_not_in_range : ℚ
  share_not_in_range : ℚ
  rows_count : ℚ
deriving DecidableEq, Repr

/-- Source display name of `TestValueRange` (line 1061). -/
def valueRangeName : String := "Value Range"

/-- Source `TestValueRange.check` (lines 1084-1099): FAIL when any value is
out of range, SUCCESS otherwise, with the by-feature groups attached to
the result. -/
def TestValueRange.check (column_name : String)
    (r : DataQualityValueRangeMetricsResult) : TestResult :=
  if 0 < r.number_not_in_range then
    { name := valueRangeName,
      description := "The column **" ++ column_name ++ "** has values out of range.",
      status := .FAIL, groups := [(byFeatureId, column_name)] }
  else
    { name := valueRangeName,
      description := "All values in the column **" ++ column_name ++ "** are within range",
      status := .SUCCESS, groups := [(byFeatureId, column_name)] }

/-- Modelled from the spec: the result of `DataQualityValueListMetrics` as
read by this module (the metric class is not part of the sources). -/
structure DataQualityValueListMetricsResult where
  number_not_in_list : ℚ
  share_not_in_list : ℚ
  rows_count : ℚ
deriving DecidableEq, Repr

/-- Source display name of `TestValueList` (line 1293). -/
def valueListName : String := "Out-of-List Values"

/-- Source `TestValueList.check` (lines 1310-1326): FAIL when any value is
out of the list, SUCCESS otherwise, with the by-feature groups attached to
the result. -/
def TestValueList.check (column_name : String)
    (r : DataQualityValueListMetricsResult) : TestResult :=
  if 0 < r.number_not_in_list then
    { name := valueListName,
      description := "The column **" ++ column_name ++ "** has values out of list.",
      status := .FAIL, groups := [(byFeatureId, column_name)] }
  else
    { name := valueListName,
      description := "All values in the column **" ++ column_name ++ "** are in the list.",
      status := .SUCCESS, groups := [(byFeatureId, column_name)] }

/-- Modelled from the spec: the construction parameters of a
`DataQualityValueQuantileMetrics` (the metric class is not part of the
sources; only its constructor arguments matter here). -/
structure DataQualityValueQuantileMetrics where
  column_name : Option String
  quantile : Option ℚ
deriving DecidableEq, Repr

/-- Whether the metric held by a constructed `TestValueQuantile` was injected
by the caller or built inside the constructor. -/
inductive QuantileMetricSource
  | injected (m : DataQualityValueQuantileMetrics)
  | constructed (m : DataQualityValueQuantileMetrics)
deriving DecidableEq, Repr

/-- A constructed `TestValueQuantile` instance (source lines 1451-1487). -/
structure TestValueQuantile where
  column_name : Option String
  quantile : Option ℚ
  metric : QuantileMetricSource
  condition : TestValueCondition
deriving DecidableEq, Repr

/-- Source `TestValueQuantile.__init__` (lines 1458-1487): with an injected
metric, any non-None `column_name` or `quantile` raises the conflict error;
without one, a None `quantile` raises; otherwise the instance is built (the
internal metric from `column_name` and `quantile`). The double space of the
conflict message is in the source. -/
def TestValueQuantile.init (column_name : Option String) (quantile : Option ℚ)
    (condition : TestValueCondition)
    (metric : Option DataQualityValueQuantileMetrics) :
    Except String TestValueQuantile :=
  match metric with
  | some m =>
      if column_name.isSome || quantile.isSome then
        .error "Test parameters and given  metric conflict"
      else
        .ok { column_name := column_name, quantile := quantile,
              metric := .injected m, condition := condition }
  | none =>
      match quantile with
      | none => .error "Quantile parameter should be present"
      | some q =>
          .ok { column_name := column_name, quantile := quantile,
                metric := .constructed { column_name := column_name, quantile := some q },
                condition := condition }

/-- A concrete per-feature statistics record used as a witness input. -/
def sampleStatRecord : FeatureQualityStats :=
  ⟨some (.num 5), some (.num 50), some 20, some 3, some 21, some 12, some 30, some 40⟩

/-- A concrete reference feature-statistics dictionary used as a witness
input. -/
def sampleRefStats : FeaturesStats := [("age", sampleStatRecord)]

/-- Claim C1, counterexample: a per-feature test (here the minimum-value
check) bound to column "region", absent from the current feature
statistics, yields status FAIL — not the SKIPPED status the claim states
(the source marks the prepared SKIPPED result as failed via
`mark_as_fail`). -/
theorem C1_counterexample :
    (BaseFeatureDataQualityMetricsTest.check "Min Value" "region"
        ⟨[("age", ⟨none, none, none, none, none, none, none, none⟩)], none⟩
        (.ok emptyCondition) none "").map TestResult.status = .ok .FAIL
    ∧ TestStatus.FAIL ≠ TestStatus.SKIPPED :=
  ⟨rfl, by decide⟩

/-- Claim C1 (amended): for every test derived from
`BaseFeatureDataQualityMetricsTest` whose `column_name` is not among the
feature statistics of the computed metric result, `check()` returns a
`TestResult` with status FAIL (set via `mark_as_fail`) carrying the
feature-not-found message — not status ERROR and not a raised exception. -/
theorem C1_feature_not_found_marks_fail (name column_name : String)
    (r : DataQualityMetricsResult) (rc : Except String TestValueCondition)
    (v : Option ℚ) (d : String)
    (h : r.features_stats.lookup column_name = none) :
    BaseFeatureDataQualityMetricsTest.check name column_name r rc v d =
      .ok { name := name, description := featureNotFoundMsg column_name,
            status := .FAIL, groups := [] } := by
  simp only [BaseFeatureDataQualityMetricsTest.check, h, TestResult.mark_as_fail,
    TestResult.set_status, Option.getD]

/-- Claim C1, witness. -/
theorem C1_witness :
    BaseFeatureDataQualityMetricsTest.check "Min Value" "age"
        ⟨[], none⟩ (.ok emptyCondition) none "" =
      .ok { name := "Min Value", description := featureNotFoundMsg "age",
            status := .FAIL, groups := [] } :=
  C1_feature_not_found_marks_fail "Min Value" "age" ⟨[], none⟩
    (.ok emptyCondition) none "" rfl

/-- Claim C3: `TestMeanInNSigmas` with `n_sigmas=2`, a column present in
both datasets, reference mean 10 and reference standard deviation 2: a
current mean of 13 lies inside the range from 6 to 14 and yields status
SUCCESS, while a current mean of 15 yields status FAIL. -/
theorem C3_mean_in_n_sigmas_scenario (col : String)
    (r r' : DataQualityMetricsResult) (rs rs' : FeaturesStats)
    (st st' rst rst' : FeatureQualityStats)
    (h1 : r.reference_features_stats = some rs)
    (h2 : r.features_stats.lookup col = some st)
    (h3 : rs.lookup col = some rst)
    (h4 : st.mean = some 13) (h5 : rst.mean = some 10) (h6 : rst.std = some 2)
    (h1' : r'.reference_features_stats = some rs')
    (h2' : r'.features_stats.lookup col = some st')
    (h3' : rs'.lookup col = some rst')
    (h4' : st'.mean = some 15) (h5' : rst'.mean = some 10) (h6' : rst'.std = some 2) :
    (TestMeanInNSigmas.check ⟨col, 2⟩ r).map TestResult.status = .ok .SUCCESS
    ∧ (TestMeanInNSigmas.check ⟨col, 2⟩ r').map TestResult.status = .ok .FAIL := by
  constructor
  · simp only [TestMeanInNSigmas.check, h1, h2, h3, h4, h5, h6, Except.map]
    norm_num
  · simp only [TestMeanInNSigmas.check, h1', h2', h3', h4', h5', h6', Except.map]
    norm_num

/-- Claim C3, witness. -/
theorem C3_witness :
    (TestMeanInNSigmas.check ⟨"age", 2⟩
        ⟨[("age", ⟨none, none, some 13, none, none, none, none, none⟩)],
         some [("age", ⟨none, none, some 10, some 2, none, none, none, none⟩)]⟩).map
        TestResult.status = .ok .SUCCESS
    ∧ (TestMeanInNSigmas.check ⟨"age", 2⟩
        ⟨[("age", ⟨none, none, some 15, none, none, none, none, none⟩)],
         some [("age", ⟨none, none, some 10, some 2, none, none, none, none⟩)]⟩).map
        TestResult.status = .ok .FAIL :=
  C3_mean_in_n_sigmas_scenario "age" _ _ _ _ _ _ _ _
    rfl rfl rfl rfl rfl rfl rfl rfl rfl rfl rfl rfl

/-- Claim C4: `TestNumColumnsMeanInNSigmas.generate_tests` over a catalogue
with numeric feature names ["age", "income"] yields exactly the two
`TestMeanInNSigmas` instances bound to "age" then "income", each with
`n_sigmas = 2`; in general the output has one test per numeric feature
name, in catalogue order, always with `n_sigmas = 2`. -/
theorem C4_generator_numeric_columns (ci : DatasetColumns) :
    TestNumColumnsMeanInNSigmas.generate_tests ⟨["age", "income"], []⟩ =
      [⟨"age", 2⟩, ⟨"income", 2⟩]
    ∧ (TestNumColumnsMeanInNSigmas.generate_tests ci).map TestMeanInNSigmas.column_name =
        ci.num_feature_names
    ∧ (TestNumColumnsMeanInNSigmas.generate_tests ci).map TestMeanInNSigmas.n_sigmas =
        ci.num_feature_names.map (fun _ => (2 : ℚ)) := by
  refine ⟨rfl, ?_, ?_⟩ <;>
    simp [TestNumColumnsMeanInNSigmas.generate_tests, List.map_map, Function.comp_def]

/-- Claim C9: constructing a `TestValueQuantile` with an injected metric
raises the conflict error whenever `column_name` or `quantile` is also
non-None; construction without an injected metric raises when `quantile`
is None; in the remaining cases construction succeeds. -/
theorem C9_quantile_init (cn : Option String) (q : Option ℚ)
    (cond : TestValueCondition) (m : DataQualityValueQuantileMetrics)
    (cn2 : Option String) (cond2 : TestValueCondition)
    (cond3 : TestValueCondition) (m3 : DataQualityValueQuantileMetrics)
    (cn4 : Option String) (q4 : ℚ) (cond4 : TestValueCondition)
    (h : (cn.isSome || q.isSome) = true) :
    TestValueQuantile.init cn q cond (some m) =
      .error "Test parameters and given  metric conflict"
    ∧ TestValueQuantile.init cn2 none cond2 none =
      .error "Quantile parameter should be present"
    ∧ TestValueQuantile.init none none cond3 (some m3) =
      .ok ⟨none, none, .injected m3, cond3⟩
    ∧ TestValueQuantile.init cn4 (some q4) cond4 none =
      .ok ⟨cn4, some q4, .constructed ⟨cn4, some q4⟩, cond4⟩ := by
  refine ⟨?_, rfl, rfl, rfl⟩
  simp [TestValueQuantile.init, h]

/-- Claim C9, witness. -/
theorem C9_witness :
    TestValueQuantile.init (some "a") none emptyCondition (some ⟨none, some 1⟩) =
      .error "Test parameters and given  metric conflict"
    ∧ TestValueQuantile.init (some "b") none emptyCondition none =
      .error "Quantile parameter should be present"
    ∧ TestValueQuantile.init none none emptyCondition (some ⟨none, some 1⟩) =
      .ok ⟨none, none, .injected ⟨none, some 1⟩, emptyCondition⟩
    ∧ TestValueQuantile.init (some "c") (some (1/2)) emptyCondition none =
      .ok ⟨some "c", some (1/2), .constructed ⟨some "c", some (1/2)⟩, emptyCondition⟩ :=
  C9_quantile_init (some "a") none emptyCondition ⟨none, some 1⟩
    (some "b") emptyCondition emptyCondition ⟨none, some 1⟩
    (some "c") (1/2) emptyCondition rfl

/-- Claim C10: `TestMeanInNSigmas` uses strictly exclusive bounds — for a
column present in both datasets, a current mean exactly equal to
`reference mean + n_sigmas * reference std`, or exactly equal to
`reference mean - n_sigmas * reference std`, yields status FAIL, not
SUCCESS. -/
theorem C10_exclusive_bounds (col : String) (n m s : ℚ)
    (r r' : DataQualityMetricsResult) (rs rs' : FeaturesStats)
    (st st' rst rst' : FeatureQualityStats)
    (h1 : r.reference_features_stats = some rs)
    (h2 : r.features_stats.lookup col = some st)
    (h3 : rs.lookup col = some rst)
    (h4 : st.mean = some (m + n * s)) (h5 : rst.mean = some m) (h6 : rst.std = some s)
    (h1' : r'.reference_features_stats = some rs')
    (h2' : r'.features_stats.lookup col = some st')
    (h3' : rs'.lookup col = some rst')
    (h4' : st'.mean = some (m - n * s)) (h5' : rst'.mean = some m) (h6' : rst'.std = some s) :
    (TestMeanInNSigmas.check ⟨col, n⟩ r).map TestResult.status = .ok .FAIL
    ∧ (TestMeanInNSigmas.check ⟨col, n⟩ r').map TestResult.status = .ok .FAIL := by
  constructor
  · simp only [TestMeanInNSigmas.check, h1, h2, h3, h4, h5, h6, Except.map]
    have hno : ¬(m - s * n < m + n * s ∧ m + n * s < m + s * n) := by
      rintro ⟨-, hlt⟩
      rw [mul_comm s n] at hlt
      exact lt_irrefl _ hlt
    rw [if_neg hno]
  · simp only [TestMeanInNSigmas.check, h1', h2', h3', h4', h5', h6', Except.map]
    have hno : ¬(m - s * n < m - n * s ∧ m - n * s < m + s * n) := by
      rintro ⟨hlt, -⟩
      rw [mul_comm s n] at hlt
      exact lt_irrefl _ hlt
    rw [if_neg hno]

/-- Claim C10, witness (reference mean 10, std 2, n_sigmas 2; current means
exactly 14 and exactly 6). -/
theorem C10_witness :
    (TestMeanInNSigmas.check ⟨"age", 2⟩
        ⟨[("age", ⟨none, none, some (10 + 2 * 2), none, none, none, none, none⟩)],
         some [("age", ⟨none, none, some 10, some 2, none, none, none, none⟩)]⟩).map
        TestResult.status = .ok .FAIL
    ∧ (TestMeanInNSigmas.check ⟨"age", 2⟩
        ⟨[("age", ⟨none, none, some (10 - 2 * 2), none, none, none, none, none⟩)],
         some [("age", ⟨none, none, some 10, some 2, none, none, none, none⟩)]⟩).map
        TestResult.status = .ok .FAIL :=
  C10_exclusive_bounds "age" 2 10 2 _ _ _ _ _ _ _ _
    rfl rfl rfl rfl rfl rfl rfl rfl rfl rfl rfl rfl

/-- Claim C2: for every concrete test of this module, an explicit condition
supplied at construction time (any field set, so `has_condition` holds) is
returned by `get_condition()` exactly as constructed, for any metric
result — no reference-derived or fixed default is substituted. -/
theorem C2_explicit_condition_verbatim (cond : TestValueCondition)
    (rc : DataQualityCorrelationMetricsResult) (col : String)
    (rm : DataQualityMetricsResult) (rq : DataQualityValueQuantileMetricsResult)
    (h : cond.has_condition = true) :
    TestTargetPredictionCorrelation.get_condition cond rc = cond
    ∧ TestHighlyCorrelatedFeatures.get_condition cond rc = cond
    ∧ TestTargetFeaturesCorrelations.get_condition cond rc = cond
    ∧ TestPredictionFeaturesCorrelations.get_condition cond rc = cond
    ∧ TestCorrelationChanges.get_condition cond = cond
    ∧ TestFeatureValueMin.get_condition col cond rm = .ok cond
    ∧ TestFeatureValueMax.get_condition col cond rm = .ok cond
    ∧ TestFeatureValueMean.get_condition col cond rm = .ok cond
    ∧ TestFeatureValueMedian.get_condition col cond rm = .ok cond
    ∧ TestFeatureValueStd.get_condition col cond rm = .ok cond
    ∧ TestNumberOfUniqueValues.get_condition col cond rm = .ok cond
    ∧ TestUniqueValuesShare.get_condition col cond rm = .ok cond
    ∧ TestMostCommonValueShare.get_condition col cond rm = .ok cond
    ∧ TestNumberOfOutRangeValues.get_condition cond = cond
    ∧ TestShareOfOutRangeValues.get_condition cond = cond
    ∧ TestNumberOfOutListValues.get_condition cond = cond
    ∧ TestShareOfOutListValues.get_condition cond = cond
    ∧ TestValueQuantile.get_condition cond rq = .ok cond := by
  simp [TestTargetPredictionCorrelation.get_condition,
    TestHighlyCorrelatedFeatures.get_condition,
    TestTargetFeaturesCorrelations.get_condition,
    TestPredictionFeaturesCorrelations.get_condition,
    TestCorrelationChanges.get_condition,
    TestFeatureValueMin.get_condition, TestFeatureValueMax.get_condition,
    TestFeatureValueMean.get_condition, TestFeatureValueMedian.get_condition,
    TestFeatureValueStd.get_condition, TestNumberOfUniqueValues.get_condition,
    TestUniqueValuesShare.get_condition, TestMostCommonValueShare.get_condition,
    TestNumberOfOutRangeValues.get_condition, TestShareOfOutRangeValues.get_condition,
    TestNumberOfOutListValues.get_condition, TestShareOfOutListValues.get_condition,
    TestValueQuantile.get_condition, h]

/-- Claim C2, witness (explicit condition `gt=0`, metric results with
reference parts present). -/
theorem C2_witness :
    TestTargetPredictionCorrelation.get_condition
        { emptyCondition with gt := some 0 }
        ⟨⟨some 1, some 1, some 1, some 1, []⟩, some ⟨some 1, some 1, some 1, some 1, []⟩⟩ =
      { emptyCondition with gt := some 0 }
    ∧ TestHighlyCorrelatedFeatures.get_condition
        { emptyCondition with gt := some 0 }
        ⟨⟨some 1, some 1, some 1, some 1, []⟩, some ⟨some 1, some 1, some 1, some 1, []⟩⟩ =
      { emptyCondition with gt := some 0 }
    ∧ TestTargetFeaturesCorrelations.get_condition
        { emptyCondition with gt := some 0 }
        ⟨⟨some 1, some 1, some 1, some 1, []⟩, some ⟨some 1, some 1, some 1, some 1, []⟩⟩ =
      { emptyCondition with gt := some 0 }
    ∧ TestPredictionFeaturesCorrelations.get_condition
        { emptyCondition with gt := some 0 }
        ⟨⟨some 1, some 1, some 1, some 1, []⟩, some ⟨some 1, some 1, some 1, some 1, []⟩⟩ =
      { emptyCondition with gt := some 0 }
    ∧ TestCorrelationChanges.get_condition { emptyCondition with gt := some 0 } =
      { emptyCondition with gt := some 0 }
    ∧ TestFeatureValueMin.get_condition "age" { emptyCondition with gt := some 0 }
        ⟨[], some []⟩ = .ok { emptyCondition with gt := some 0 }
    ∧ TestFeatureValueMax.get_condition "age" { emptyCondition with gt := some 0 }
        ⟨[], some []⟩ = .ok { emptyCondition with gt := some 0 }
    ∧ TestFeatureValueMean.get_condition "age" { emptyCondition with gt := some 0 }
        ⟨[], some []⟩ = .ok { emptyCondition with gt := some 0 }
    ∧ TestFeatureValueMedian.get_condition "age" { emptyCondition with gt := some 0 }
        ⟨[], some []⟩ = .ok { emptyCondition with gt := some 0 }
    ∧ TestFeatureValueStd.get_condition "age" { emptyCondition with gt := some 0 }
        ⟨[], some []⟩ = .ok { emptyCondition with gt := some 0 }
    ∧ TestNumberOfUniqueValues.get_condition "age" { emptyCondition with gt := some 0 }
        ⟨[], some []⟩ = .ok { emptyCondition with gt := some 0 }
    ∧ TestUniqueValuesShare.get_condition "age" { emptyCondition with gt := some 0 }
        ⟨[], some []⟩ = .ok { emptyCondition with gt := some 0 }
    ∧ TestMostCommonValueShare.get_condition "age" { emptyCondition with gt := some 0 }
        ⟨[], some []⟩ = .ok { emptyCondition with gt := some 0 }
    ∧ TestNumberOfOutRangeValues.get_condition { emptyCondition with gt := some 0 } =
      { emptyCondition with gt := some 0 }
    ∧ TestShareOfOutRangeValues.get_condition { emptyCondition with gt := some 0 } =
      { emptyCondition with gt := some 0 }
    ∧ TestNumberOfOutListValues.get_condition { emptyCondition with gt := some 0 } =
      { emptyCondition with gt := some 0 }
    ∧ TestShareOfOutListValues.get_condition { emptyCondition with gt := some 0 } =
      { emptyCondition with gt := some 0 }
    ∧ TestValueQuantile.get_condition { emptyCondition with gt := some 0 } ⟨0, some 0⟩ =
      .ok { emptyCondition with gt := some 0 } :=
  C2_explicit_condition_verbatim { emptyCondition with gt := some 0 }
    ⟨⟨some 1, some 1, some 1, some 1, []⟩, some ⟨some 1, some 1, some 1, some 1, []⟩⟩
    "age" ⟨[], some []⟩ ⟨0, some 0⟩ rfl

/-- Claim C6, counterexample: `TestFeatureValueMin` with no explicit
condition and a reference part that holds the column but whose minimum is
None (as for a categorical column) returns `TestValueCondition(gte=None)`
— a condition with no fields set — neither the documented fixed default
nor a configuration error, refuting the claim. -/
theorem C6_counterexample :
    TestFeatureValueMin.get_condition "region" emptyCondition
        ⟨[], some [("region", ⟨none, none, none, none, none, none, none, none⟩)]⟩ =
      .ok emptyCondition
    ∧ emptyCondition.has_condition = false :=
  ⟨rfl, rfl⟩

/-- Claim C6 (amended): for every test of this module constructed with no
explicit condition, when the metric result carries no reference part (and,
for the correlation checks, also when the reference part lacks the checked
statistic), `get_condition()` returns the documented fixed default
(`gt=0` target-prediction correlation, `lt=0.9` correlation maxima,
`eq=0` correlation changes, `gt=1` unique-value count, `lt=0.8`
most-common-value share, `eq=approx(0)` out-of-range/out-of-list counts
and shares) or raises the configuration error demanding explicit
parameters or reference data, and never returns a condition with no
fields set; but when a reference part is present and the checked
per-feature statistic is None, `TestFeatureValueMin` and
`TestFeatureValueMax` return a condition with no fields set
(`gte=None` / `lte=None`), and the mean, median, std and unique-count
checks return `eq=approx(None)` — neither a fixed default nor an error
(the unique-share check raises and the most-common-share check falls back
to `lt=0.8`). -/
theorem C6_no_usable_reference_behaviour (cond : TestValueCondition)
    (rc rc2 : DataQualityCorrelationMetricsResult) (refc2 : CorrelationStats)
    (rm rm2 : DataQualityMetricsResult) (rq : DataQualityValueQuantileMetricsResult)
    (col : String) (rfs2 : FeaturesStats) (stN : FeatureQualityStats)
    (hc : cond.has_condition = false)
    (h1 : rc.reference = none)
    (h2 : rc2.reference = some refc2)
    (h3 : refc2.target_prediction_correlation = none)
    (h4 : refc2.abs_max_num_features_correlation = none)
    (h5 : refc2.abs_max_target_features_correlation = none)
    (h6 : refc2.abs_max_prediction_features_correlation = none)
    (h7 : rm.reference_features_stats = none)
    (h8 : rq.ref_value = none)
    (h9 : rm2.reference_features_stats = some rfs2)
    (h10 : rfs2.lookup col = some stN)
    (h11 : stN.min = none) (h12 : stN.max = none) (h13 : stN.mean = none)
    (h14 : stN.percentile_50 = none) (h15 : stN.std = none)
    (h16 : stN.unique_count = none) (h17 : stN.unique_percentage = none)
    (h18 : stN.most_common_value_percentage = none) :
    TestTargetPredictionCorrelation.get_condition cond rc =
      { emptyCondition with gt := some 0 }
    ∧ TestTargetPredictionCorrelation.get_condition cond rc2 =
      { emptyCondition with gt := some 0 }
    ∧ TestHighlyCorrelatedFeatures.get_condition cond rc =
      { emptyCondition with lt := some (9/10) }
    ∧ TestHighlyCorrelatedFeatures.get_condition cond rc2 =
      { emptyCondition with lt := some (9/10) }
    ∧ TestTargetFeaturesCorrelations.get_condition cond rc =
      { emptyCondition with lt := some (9/10) }
    ∧ TestTargetFeaturesCorrelations.get_condition cond rc2 =
      { emptyCondition with lt := some (9/10) }
    ∧ TestPredictionFeaturesCorrelations.get_condition cond rc =
      { emptyCondition with lt := some (9/10) }
    ∧ TestPredictionFeaturesCorrelations.get_condition cond rc2 =
      { emptyCondition with lt := some (9/10) }
    ∧ TestCorrelationChanges.get_condition cond =
      { emptyCondition with eq := some (.plain 0) }
    ∧ TestFeatureValueMin.get_condition col cond rm = .error noParamsMsg
    ∧ TestFeatureValueMax.get_condition col cond rm = .error noParamsMsg
    ∧ TestFeatureValueMean.get_condition col cond rm = .error noParamsMsg
    ∧ TestFeatureValueMedian.get_condition col cond rm = .error noParamsMsg
    ∧ TestFeatureValueStd.get_condition col cond rm = .error noParamsMsg
    ∧ TestNumberOfUniqueValues.get_condition col cond rm =
      .ok { emptyCondition with gt := some 1 }
    ∧ TestUniqueValuesShare.get_condition col cond rm = .error noParamsMsg
    ∧ TestMostCommonValueShare.get_condition col cond rm =
      .ok { emptyCondition with lt := some (4/5) }
    ∧ TestNumberOfOutRangeValues.get_condition cond =
      { emptyCondition with eq := some (.approxVal (approxDefault 0)) }
    ∧ TestShareOfOutRangeValues.get_condition cond =
      { emptyCondition with eq := some (.approxVal (approxDefault 0)) }
    ∧ TestNumberOfOutListValues.get_condition cond =
      { emptyCondition with eq := some (.approxVal (approxDefault 0)) }
    ∧ TestShareOfOutListValues.get_condition cond =
      { emptyCondition with eq := some (.approxVal (approxDefault 0)) }
    ∧ TestValueQuantile.get_condition cond rq = .error noParamsMsg
    ∧ TestFeatureValueMin.get_condition col cond rm2 = .ok emptyCondition
    ∧ TestFeatureValueMax.get_condition col cond rm2 = .ok emptyCondition
    ∧ TestFeatureValueMean.get_condition col cond rm2 =
      .ok { emptyCondition with eq := some (.approxVal ⟨none, .relative (1/10)⟩) }
    ∧ TestFeatureValueMedian.get_condition col cond rm2 =
      .ok { emptyCondition with eq := some (.approxVal ⟨none, .relative (1/10)⟩) }
    ∧ TestFeatureValueStd.get_condition col cond rm2 =
      .ok { emptyCondition with eq := some (.approxVal ⟨none, .relative (1/10)⟩) }
    ∧ TestNumberOfUniqueValues.get_condition col cond rm2 =
      .ok { emptyCondition with eq := some (.approxVal ⟨none, .relative (1/10)⟩) }
    ∧ TestUniqueValuesShare.get_condition col cond rm2 = .error noParamsMsg
    ∧ TestMostCommonValueShare.get_condition col cond rm2 =
      .ok { emptyCondition with lt := some (4/5) }
    ∧ emptyCondition.has_condition = false
    ∧ ({ emptyCondition with gt := some (0 : ℚ) } : TestValueCondition).has_condition = true
    ∧ ({ emptyCondition with lt := some ((9 : ℚ)/10) } : TestValueCondition).has_condition = true
    ∧ ({ emptyCondition with eq := some (.plain 0) } : TestValueCondition).has_condition = true
    ∧ ({ emptyCondition with gt := some (1 : ℚ) } : TestValueCondition).has_condition = true
    ∧ ({ emptyCondition with lt := some ((4 : ℚ)/5) } : TestValueCondition).has_condition = true
    ∧ ({ emptyCondition with eq := some (.approxVal (approxDefault 0)) } :
        TestValueCondition).has_condition = true := by
  simp [TestTargetPredictionCorrelation.get_condition,
    TestHighlyCorrelatedFeatures.get_condition,
    TestTargetFeaturesCorrelations.get_condition,
    TestPredictionFeaturesCorrelations.get_condition,
    TestCorrelationChanges.get_condition,
    TestFeatureValueMin.get_condition, TestFeatureValueMax.get_condition,
    TestFeatureValueMean.get_condition, TestFeatureValueMedian.get_condition,
    TestFeatureValueStd.get_condition, TestNumberOfUniqueValues.get_condition,
    TestUniqueValuesShare.get_condition, TestMostCommonValueShare.get_condition,
    TestNumberOfOutRangeValues.get_condition, TestShareOfOutRangeValues.get_condition,
    TestNumberOfOutListValues.get_condition, TestShareOfOutListValues.get_condition,
    TestValueQuantile.get_condition, emptyCondition,
    hc, h1, h2, h3, h4, h5, h6, h7, h8,
    h9, h10, h11, h12, h13, h14, h15, h16, h17, h18]
  decide

/-- Claim C6, witness. -/
theorem C6_witness :
    TestTargetPredictionCorrelation.get_condition emptyCondition
        ⟨⟨none, none, none, none, []⟩, none⟩ = { emptyCondition with gt := some 0 }
    ∧ TestTargetPredictionCorrelation.get_condition emptyCondition
        ⟨⟨none, none, none, none, []⟩, some ⟨none, none, none, none, []⟩⟩ =
      { emptyCondition with gt := some 0 }
    ∧ TestHighlyCorrelatedFeatures.get_condition emptyCondition
        ⟨⟨none, none, none, none, []⟩, none⟩ = { emptyCondition with lt := some (9/10) }
    ∧ TestHighlyCorrelatedFeatures.get_condition emptyCondition
        ⟨⟨none, none, none, none, []⟩, some ⟨none, none, none, none, []⟩⟩ =
      { emptyCondition with lt := some (9/10) }
    ∧ TestTargetFeaturesCorrelations.get_condition emptyCondition
        ⟨⟨none, none, none, none, []⟩, none⟩ = { emptyCondition with lt := some (9/10) }
    ∧ TestTargetFeaturesCorrelations.get_condition emptyCondition
        ⟨⟨none, none, none, none, []⟩, some ⟨none, none, none, none, []⟩⟩ =
      { emptyCondition with lt := some (9/10) }
    ∧ TestPredictionFeaturesCorrelations.get_condition emptyCondition
        ⟨⟨none, none, none, none, []⟩, none⟩ = { emptyCondition with lt := some (9/10) }
    ∧ TestPredictionFeaturesCorrelations.get_condition emptyCondition
        ⟨⟨none, none, none, none, []⟩, some ⟨none, none, none, none, []⟩⟩ =
      { emptyCondition with lt := some (9/10) }
    ∧ TestCorrelationChanges.get_condition emptyCondition =
      { emptyCondition with eq := some (.plain 0) }
    ∧ TestFeatureValueMin.get_condition "age" emptyCondition ⟨[], none⟩ =
      .error noParamsMsg
    ∧ TestFeatureValueMax.get_condition "age" emptyCondition ⟨[], none⟩ =
      .error noParamsMsg
    ∧ TestFeatureValueMean.get_condition "age" emptyCondition ⟨[], none⟩ =
      .error noParamsMsg
    ∧ TestFeatureValueMedian.get_condition "age" emptyCondition ⟨[], none⟩ =
      .error noParamsMsg
    ∧ TestFeatureValueStd.get_condition "age" emptyCondition ⟨[], none⟩ =
      .error noParamsMsg
    ∧ TestNumberOfUniqueValues.get_condition "age" emptyCondition ⟨[], none⟩ =
      .ok { emptyCondition with gt := some 1 }
    ∧ TestUniqueValuesShare.get_condition "age" emptyCondition ⟨[], none⟩ =
      .error noParamsMsg
    ∧ TestMostCommonValueShare.get_condition "age" emptyCondition ⟨[], none⟩ =
      .ok { emptyCondition with lt := some (4/5) }
    ∧ TestNumberOfOutRangeValues.get_condition emptyCondition =
      { emptyCondition with eq := some (.approxVal (approxDefault 0)) }
    ∧ TestShareOfOutRangeValues.get_condition emptyCondition =
      { emptyCondition with eq := some (.approxVal (approxDefault 0)) }
    ∧ TestNumberOfOutListValues.get_condition emptyCondition =
      { emptyCondition with eq := some (.approxVal (approxDefault 0)) }
    ∧ TestShareOfOutListValues.get_condition emptyCondition =
      { emptyCondition with eq := some (.approxVal (approxDefault 0)) }
    ∧ TestValueQuantile.get_condition emptyCondition ⟨0, none⟩ = .error noParamsMsg
    ∧ TestFeatureValueMin.get_condition "age" emptyCondition
        ⟨[], some [("age", ⟨none, none, none, none, none, none, none, none⟩)]⟩ =
      .ok emptyCondition
    ∧ TestFeatureValueMax.get_condition "age" emptyCondition
        ⟨[], some [("age", ⟨none, none, none, none, none, none, none, none⟩)]⟩ =
      .ok emptyCondition
    ∧ TestFeatureValueMean.get_condition "age" emptyCondition
        ⟨[], some [("age", ⟨none, none, none, none, none, none, none, none⟩)]⟩ =
      .ok { emptyCondition with eq := some (.approxVal ⟨none, .relative (1/10)⟩) }
    ∧ TestFeatureValueMedian.get_condition "age" emptyCondition
        ⟨[], some [("age", ⟨none, none, none, none, none, none, none, none⟩)]⟩ =
      .ok { emptyCondition with eq := some (.approxVal ⟨none, .relative (1/10)⟩) }
    ∧ TestFeatureValueStd.get_condition "age" emptyCondition
        ⟨[], some [("age", ⟨none, none, none, none, none, none, none, none⟩)]⟩ =
      .ok { emptyCondition with eq := some (.approxVal ⟨none, .relative (1/10)⟩) }
    ∧ TestNumberOfUniqueValues.get_condition "age" emptyCondition
        ⟨[], some [("age", ⟨none, none, none, none, none, none, none, none⟩)]⟩ =
      .ok { emptyCondition with eq := some (.approxVal ⟨none, .relative (1/10)⟩) }
    ∧ TestUniqueValuesShare.get_condition "age" emptyCondition
        ⟨[], some [("age", ⟨none, none, none, none, none, none, none, none⟩)]⟩ =
      .error noParamsMsg
    ∧ TestMostCommonValueShare.get_condition "age" emptyCondition
        ⟨[], some [("age", ⟨none, none, none, none, none, none, none, none⟩)]⟩ =
      .ok { emptyCondition with lt := some (4/5) }
    ∧ emptyCondition.has_condition = false
    ∧ ({ emptyCondition with gt := some (0 : ℚ) } : TestValueCondition).has_condition = true
    ∧ ({ emptyCondition with lt := some ((9 : ℚ)/10) } : TestValueCondition).has_condition = true
    ∧ ({ emptyCondition with eq := some (.plain 0) } : TestValueCondition).has_condition = true
    ∧ ({ emptyCondition with gt := some (1 : ℚ) } : TestValueCondition).has_condition = true
    ∧ ({ emptyCondition with lt := some ((4 : ℚ)/5) } : TestValueCondition).has_condition = true
    ∧ ({ emptyCondition with eq := some (.approxVal (approxDefault 0)) } :
        TestValueCondition).has_condition = true :=
  C6_no_usable_reference_behaviour emptyCondition
    ⟨⟨none, none, none, none, []⟩, none⟩
    ⟨⟨none, none, none, none, []⟩, some ⟨none, none, none, none, []⟩⟩
    ⟨none, none, none, none, []⟩ ⟨[], none⟩
    ⟨[], some [("age", ⟨none, none, none, none, none, none, none, none⟩)]⟩
    ⟨0, none⟩ "age"
    [("age", ⟨none, none, none, none, none, none, none, none⟩)]
    ⟨none, none, none, none, none, none, none, none⟩
    rfl rfl rfl rfl rfl rfl rfl rfl rfl
    rfl rfl rfl rfl rfl rfl rfl rfl rfl rfl

/-- Claim C5: every per-feature test of this module reports its grouping
metadata under the single by-feature dimension key mapped to its own
column name — the `groups` methods of the per-feature base classes and of
`TestValueQuantile`, and the groups attached to their results by
`TestMeanInNSigmas.check`, `TestValueRange.check` and
`TestValueList.check` — and the groups mapping has no effect on the
computed status: the generic check run with two different groups mappings
produces the same status. -/
theorem C5_grouping_protocol (col n : String) (g1 g2 : List (String × String))
    (rcond : Except String TestValueCondition) (v : Option ℚ) (d : String)
    (t : TestMeanInNSigmas) (rq : DataQualityMetricsResult) (res : TestResult)
    (rvr : DataQualityValueRangeMetricsResult)
    (rvl : DataQualityValueListMetricsResult)
    (hres : TestMeanInNSigmas.check t rq = .ok res) :
    BaseFeatureDataQualityMetricsTest.groups col = [(byFeatureId, col)]
    ∧ BaseDataQualityValueRangeMetricsTest.groups col = [(byFeatureId, col)]
    ∧ BaseDataQualityValueListMetricsTest.groups col = [(byFeatureId, col)]
    ∧ TestValueQuantile.groups col = [(byFeatureId, col)]
    ∧ (TestValueRange.check col rvr).groups = [(byFeatureId, col)]
    ∧ (TestValueList.check col rvl).groups = [(byFeatureId, col)]
    ∧ res.groups = [(byFeatureId, t.column_name)]
    ∧ (baseCheckValue n g1 rcond v d).map TestResult.status =
        (baseCheckValue n g2 rcond v d).map TestResult.status := by
  refine ⟨rfl, rfl, rfl, rfl, ?_, ?_, ?_, ?_⟩
  · unfold TestValueRange.check
    split <;> rfl
  · unfold TestValueList.check
    split <;> rfl
  · unfold TestMeanInNSigmas.check at hres
    split at hres <;>
      try (split at hres <;> try (split at hres <;> try (split at hres)))
    all_goals try (simp only [Except.ok.injEq] at hres; subst hres; rfl)
    all_goals simp_all
  · cases rcond with
    | error e => rfl
    | ok c =>
        cases v with
        | none => rfl
        | some x =>
            cases hcv : c.check_value x <;>
              simp [baseCheckValue, hcv, Except.map]

/-- Claim C5, witness. -/
theorem C5_witness :
    BaseFeatureDataQualityMetricsTest.groups "age" = [(byFeatureId, "age")]
    ∧ BaseDataQualityValueRangeMetricsTest.groups "age" = [(byFeatureId, "age")]
    ∧ BaseDataQualityValueListMetricsTest.groups "age" = [(byFeatureId, "age")]
    ∧ TestValueQuantile.groups "age" = [(byFeatureId, "age")]
    ∧ (TestValueRange.check "age" ⟨1, 1/5, 5⟩).groups = [(byFeatureId, "age")]
    ∧ (TestValueList.check "age" ⟨0, 0, 5⟩).groups = [(byFeatureId, "age")]
    ∧ ({ name := meanInNSigmasName,
         description := meanInNSigmasRangeDesc "age" 10 6 14,
         status := TestStatus.SUCCESS,
         groups := [(byFeatureId, "age")] } : TestResult).groups =
        [(byFeatureId, "age")]
    ∧ (baseCheckValue "t" [(byFeatureId, "a")] (.ok emptyCondition) (some 1) "d").map
        TestResult.status =
      (baseCheckValue "t" [(byFeatureId, "b")] (.ok emptyCondition) (some 1) "d").map
        TestResult.status :=
  C5_grouping_protocol "age" "t" [(byFeatureId, "a")] [(byFeatureId, "b")]
    (.ok emptyCondition) (some 1) "d" ⟨"age", 2⟩
    ⟨[("age", ⟨none, none, some 10, none, none, none, none, none⟩)],
     some [("age", ⟨none, none, some 10, some 2, none, none, none, none⟩)]⟩
    { name := meanInNSigmasName,
      description := meanInNSigmasRangeDesc "age" 10 6 14,
      status := TestStatus.SUCCESS,
      groups := [(byFeatureId, "age")] }
    ⟨1, 1/5, 5⟩ ⟨0, 0, 5⟩
    (by norm_num [TestMeanInNSigmas.check])

/-- Claim C7, counterexample: `TestFeatureValueMin` with no explicit
condition and a reference minimum of 5 for the column derives the
comparison condition `gte=5`, whose `eq` field is unset — not an
approximate-equality condition around the reference value, contrary to
the claim quantified over every test of this module. -/
theorem C7_counterexample :
    TestFeatureValueMin.get_condition "age" emptyCondition
        ⟨[], some [("age", ⟨some (.num 5), none, none, none, none, none, none, none⟩)]⟩ =
      .ok { emptyCondition with gte := some 5 }
    ∧ ({ emptyCondition with gte := some (5 : ℚ) } : TestValueCondition).eq = none :=
  ⟨rfl, rfl⟩

/-- Claim C7 (amended): for every reference-deriving test of this module
with no explicit condition, when the metric result carries a defined
reference value for the checked statistic, `get_condition()` derives its
condition from that reference value — an approximate-equality condition
targeting the reference value (with the declared absolute or relative
tolerance) for the correlation, mean, median, std, unique-count,
unique-share, most-common-share and quantile checks, and a `gte`/`lte`
comparison bound equal to the reference minimum/maximum for the min/max
checks — and the derived condition is read from the reference part of the
metric result only, never from the current part. -/
theorem C7_reference_derivation (cond : TestValueCondition) (col : String)
    (cs1 cs2 : CorrelationStats) (refCorr : Option CorrelationStats)
    (fs1 fs2 : FeaturesStats) (refOpt : Option FeaturesStats)
    (v1 v2 : ℚ) (refq : Option ℚ)
    (rc : DataQualityCorrelationMetricsResult) (refc : CorrelationStats)
    (rm : DataQualityMetricsResult) (rfs : FeaturesStats) (st : FeatureQualityStats)
    (rq : DataQualityValueQuantileMetricsResult)
    (tp hcv tfv pfv mn mx mv sv p50 uc up mc rv : ℚ)
    (hc : cond.has_condition = false)
    (href : rc.reference = some refc)
    (f1 : refc.target_prediction_correlation = some tp)
    (f2 : refc.abs_max_num_features_correlation = some hcv)
    (f3 : refc.abs_max_target_features_correlation = some tfv)
    (f4 : refc.abs_max_prediction_features_correlation = some pfv)
    (hm : rm.reference_features_stats = some rfs)
    (hlk : rfs.lookup col = some st)
    (s1 : st.min = some (.num mn)) (s2 : st.max = some (.num mx))
    (s3 : st.mean = some mv) (s4 : st.std = some sv) (s5 : st.percentile_50 = some p50)
    (s6 : st.unique_count = some uc) (s7 : st.unique_percentage = some up)
    (s8 : st.most_common_value_percentage = some mc)
    (hrv : rq.ref_value = some rv) :
    TestTargetPredictionCorrelation.get_condition cond ⟨cs1, refCorr⟩ =
      TestTargetPredictionCorrelation.get_condition cond ⟨cs2, refCorr⟩
    ∧ TestHighlyCorrelatedFeatures.get_condition cond ⟨cs1, refCorr⟩ =
      TestHighlyCorrelatedFeatures.get_condition cond ⟨cs2, refCorr⟩
    ∧ TestTargetFeaturesCorrelations.get_condition cond ⟨cs1, refCorr⟩ =
      TestTargetFeaturesCorrelations.get_condition cond ⟨cs2, refCorr⟩
    ∧ TestPredictionFeaturesCorrelations.get_condition cond ⟨cs1, refCorr⟩ =
      TestPredictionFeaturesCorrelations.get_condition cond ⟨cs2, refCorr⟩
    ∧ TestFeatureValueMin.get_condition col cond ⟨fs1, refOpt⟩ =
      TestFeatureValueMin.get_condition col cond ⟨fs2, refOpt⟩
    ∧ TestFeatureValueMax.get_condition col cond ⟨fs1, refOpt⟩ =
      TestFeatureValueMax.get_condition col cond ⟨fs2, refOpt⟩
    ∧ TestFeatureValueMean.get_condition col cond ⟨fs1, refOpt⟩ =
      TestFeatureValueMean.get_condition col cond ⟨fs2, refOpt⟩
    ∧ TestFeatureValueMedian.get_condition col cond ⟨fs1, refOpt⟩ =
      TestFeatureValueMedian.get_condition col cond ⟨fs2, refOpt⟩
    ∧ TestFeatureValueStd.get_condition col cond ⟨fs1, refOpt⟩ =
      TestFeatureValueStd.get_condition col cond ⟨fs2, refOpt⟩
    ∧ TestNumberOfUniqueValues.get_condition col cond ⟨fs1, refOpt⟩ =
      TestNumberOfUniqueValues.get_condition col cond ⟨fs2, refOpt⟩
    ∧ TestUniqueValuesShare.get_condition col cond ⟨fs1, refOpt⟩ =
      TestUniqueValuesShare.get_condition col cond ⟨fs2, refOpt⟩
    ∧ TestMostCommonValueShare.get_condition col cond ⟨fs1, refOpt⟩ =
      TestMostCommonValueShare.get_condition col cond ⟨fs2, refOpt⟩
    ∧ TestValueQuantile.get_condition cond ⟨v1, refq⟩ =
      TestValueQuantile.get_condition cond ⟨v2, refq⟩
    ∧ TestTargetPredictionCorrelation.get_condition cond rc =
      { emptyCondition with eq := some (.approxVal (approxAbsolute tp (1/4))) }
    ∧ TestHighlyCorrelatedFeatures.get_condition cond rc =
      { emptyCondition with eq := some (.approxVal (approxRelative hcv (1/10))) }
    ∧ TestTargetFeaturesCorrelations.get_condition cond rc =
      { emptyCondition with eq := some (.approxVal (approxRelative tfv (1/10))) }
    ∧ TestPredictionFeaturesCorrelations.get_condition cond rc =
      { emptyCondition with eq := some (.approxVal (approxRelative pfv (1/10))) }
    ∧ TestFeatureValueMin.get_condition col cond rm =
      .ok { emptyCondition with gte := some mn }
    ∧ TestFeatureValueMax.get_condition col cond rm =
      .ok { emptyCondition with lte := some mx }
    ∧ TestFeatureValueMean.get_condition col cond rm =
      .ok { emptyCondition with eq := some (.approxVal (approxRelative mv (1/10))) }
    ∧ TestFeatureValueMedian.get_condition col cond rm =
      .ok { emptyCondition with eq := some (.approxVal (approxRelative p50 (1/10))) }
    ∧ TestFeatureValueStd.get_condition col cond rm =
      .ok { emptyCondition with eq := some (.approxVal (approxRelative sv (1/10))) }
    ∧ TestNumberOfUniqueValues.get_condition col cond rm =
      .ok { emptyCondition with eq := some (.approxVal (approxRelative uc (1/10))) }
    ∧ TestUniqueValuesShare.get_condition col cond rm =
      .ok { emptyCondition with eq := some (.approxVal (approxRelative (up / 100) (1/10))) }
    ∧ TestMostCommonValueShare.get_condition col cond rm =
      .ok { emptyCondition with eq := some (.approxVal (approxRelative (mc / 100) (1/10))) }
    ∧ TestValueQuantile.get_condition cond rq =
      .ok { emptyCondition with eq := some (.approxVal (approxRelative rv (1/10))) } := by
  refine ⟨rfl, rfl, rfl, rfl, rfl, rfl, rfl, rfl, rfl, rfl, rfl, rfl, rfl,
    ?_, ?_, ?_, ?_, ?_, ?_, ?_, ?_, ?_, ?_, ?_, ?_, ?_⟩ <;>
    simp [TestTargetPredictionCorrelation.get_condition,
      TestHighlyCorrelatedFeatures.get_condition,
      TestTargetFeaturesCorrelations.get_condition,
      TestPredictionFeaturesCorrelations.get_condition,
      TestFeatureValueMin.get_condition, TestFeatureValueMax.get_condition,
      TestFeatureValueMean.get_condition, TestFeatureValueMedian.get_condition,
      TestFeatureValueStd.get_condition, TestNumberOfUniqueValues.get_condition,
      TestUniqueValuesShare.get_condition, TestMostCommonValueShare.get_condition,
      TestValueQuantile.get_condition, approxRelative, approxAbsolute,
      hc, href, f1, f2, f3, f4, hm, hlk, s1, s2, s3, s4, s5, s6, s7, s8, hrv]

/-- Claim C7, witness. -/
theorem C7_witness :
    TestTargetPredictionCorrelation.get_condition emptyCondition
        ⟨⟨some 1, some 2, some 3, some 4, []⟩, some ⟨some 5, some 6, some 7, some 8, []⟩⟩ =
      TestTargetPredictionCorrelation.get_condition emptyCondition
        ⟨⟨some 9, some 9, some 9, some 9, []⟩, some ⟨some 5, some 6, some 7, some 8, []⟩⟩
    ∧ TestHighlyCorrelatedFeatures.get_condition emptyCondition
        ⟨⟨some 1, some 2, some 3, some 4, []⟩, some ⟨some 5, some 6, some 7, some 8, []⟩⟩ =
      TestHighlyCorrelatedFeatures.get_condition emptyCondition
        ⟨⟨some 9, some 9, some 9, some 9, []⟩, some ⟨some 5, some 6, some 7, some 8, []⟩⟩
    ∧ TestTargetFeaturesCorrelations.get_condition emptyCondition
        ⟨⟨some 1, some 2, some 3, some 4, []⟩, some ⟨some 5, some 6, some 7, some 8, []⟩⟩ =
      TestTargetFeaturesCorrelations.get_condition emptyCondition
        ⟨⟨some 9, some 9, some 9, some 9, []⟩, some ⟨some 5, some 6, some 7, some 8, []⟩⟩
    ∧ TestPredictionFeaturesCorrelations.get_condition emptyCondition
        ⟨⟨some 1, some 2, some 3, some 4, []⟩, some ⟨some 5, some 6, some 7, some 8, []⟩⟩ =
      TestPredictionFeaturesCorrelations.get_condition emptyCondition
        ⟨⟨some 9, some 9, some 9, some 9, []⟩, some ⟨some 5, some 6, some 7, some 8, []⟩⟩
    ∧ TestFeatureValueMin.get_condition "age" emptyCondition ⟨[], some sampleRefStats⟩ =
      TestFeatureValueMin.get_condition "age" emptyCondition
        ⟨[("age", sampleStatRecord)], some sampleRefStats⟩
    ∧ TestFeatureValueMax.get_condition "age" emptyCondition ⟨[], some sampleRefStats⟩ =
      TestFeatureValueMax.get_condition "age" emptyCondition
        ⟨[("age", sampleStatRecord)], some sampleRefStats⟩
    ∧ TestFeatureValueMean.get_condition "age" emptyCondition ⟨[], some sampleRefStats⟩ =
      TestFeatureValueMean.get_condition "age" emptyCondition
        ⟨[("age", sampleStatRecord)], some sampleRefStats⟩
    ∧ TestFeatureValueMedian.get_condition "age" emptyCondition ⟨[], some sampleRefStats⟩ =
      TestFeatureValueMedian.get_condition "age" emptyCondition
        ⟨[("age", sampleStatRecord)], some sampleRefStats⟩
    ∧ TestFeatureValueStd.get_condition "age" emptyCondition ⟨[], some sampleRefStats⟩ =
      TestFeatureValueStd.get_condition "age" emptyCondition
        ⟨[("age", sampleStatRecord)], some sampleRefStats⟩
    ∧ TestNumberOfUniqueValues.get_condition "age" emptyCondition ⟨[], some sampleRefStats⟩ =
      TestNumberOfUniqueValues.get_condition "age" emptyCondition
        ⟨[("age", sampleStatRecord)], some sampleRefStats⟩
    ∧ TestUniqueValuesShare.get_condition "age" emptyCondition ⟨[], some sampleRefStats⟩ =
      TestUniqueValuesShare.get_condition "age" emptyCondition
        ⟨[("age", sampleStatRecord)], some sampleRefStats⟩
    ∧ TestMostCommonValueShare.get_condition "age" emptyCondition ⟨[], some sampleRefStats⟩ =
      TestMostCommonValueShare.get_condition "age" emptyCondition
        ⟨[("age", sampleStatRecord)], some sampleRefStats⟩
    ∧ TestValueQuantile.get_condition emptyCondition ⟨0, some 42⟩ =
      TestValueQuantile.get_condition emptyCondition ⟨1, some 42⟩
    ∧ TestTargetPredictionCorrelation.get_condition emptyCondition
        ⟨⟨some 1, some 2, some 3, some 4, []⟩, some ⟨some 5, some 6, some 7, some 8, []⟩⟩ =
      { emptyCondition with eq := some (.approxVal (approxAbsolute 5 (1/4))) }
    ∧ TestHighlyCorrelatedFeatures.get_condition emptyCondition
        ⟨⟨some 1, some 2, some 3, some 4, []⟩, some ⟨some 5, some 6, some 7, some 8, []⟩⟩ =
      { emptyCondition with eq := some (.approxVal (approxRelative 6 (1/10))) }
    ∧ TestTargetFeaturesCorrelations.get_condition emptyCondition
        ⟨⟨some 1, some 2, some 3, some 4, []⟩, some ⟨some 5, some 6, some 7, some 8, []⟩⟩ =
      { emptyCondition with eq := some (.approxVal (approxRelative 7 (1/10))) }
    ∧ TestPredictionFeaturesCorrelations.get_condition emptyCondition
        ⟨⟨some 1, some 2, some 3, some 4, []⟩, some ⟨some 5, some 6, some 7, some 8, []⟩⟩ =
      { emptyCondition with eq := some (.approxVal (approxRelative 8 (1/10))) }
    ∧ TestFeatureValueMin.get_condition "age" emptyCondition
        ⟨[], some sampleRefStats⟩ = .ok { emptyCondition with gte := some 5 }
    ∧ TestFeatureValueMax.get_condition "age" emptyCondition
        ⟨[], some sampleRefStats⟩ = .ok { emptyCondition with lte := some 50 }
    ∧ TestFeatureValueMean.get_condition "age" emptyCondition
        ⟨[], some sampleRefStats⟩ =
      .ok { emptyCondition with eq := some (.approxVal (approxRelative 20 (1/10))) }
    ∧ TestFeatureValueMedian.get_condition "age" emptyCondition
        ⟨[], some sampleRefStats⟩ =
      .ok { emptyCondition with eq := some (.approxVal (approxRelative 21 (1/10))) }
    ∧ TestFeatureValueStd.get_condition "age" emptyCondition
        ⟨[], some sampleRefStats⟩ =
      .ok { emptyCondition with eq := some (.approxVal (approxRelative 3 (1/10))) }
    ∧ TestNumberOfUniqueValues.get_condition "age" emptyCondition
        ⟨[], some sampleRefStats⟩ =
      .ok { emptyCondition with eq := some (.approxVal (approxRelative 12 (1/10))) }
    ∧ TestUniqueValuesShare.get_condition "age" emptyCondition
        ⟨[], some sampleRefStats⟩ =
      .ok { emptyCondition with eq := some (.approxVal (approxRelative (30 / 100) (1/10))) }
    ∧ TestMostCommonValueShare.get_condition "age" emptyCondition
        ⟨[], some sampleRefStats⟩ =
      .ok { emptyCondition with eq := some (.approxVal (approxRelative (40 / 100) (1/10))) }
    ∧ TestValueQuantile.get_condition emptyCondition ⟨0, some 42⟩ =
      .ok { emptyCondition with eq := some (.approxVal (approxRelative 42 (1/10))) } :=
  C7_reference_derivation emptyCondition "age"
    ⟨some 1, some 2, some 3, some 4, []⟩ ⟨some 9, some 9, some 9, some 9, []⟩
    (some ⟨some 5, some 6, some 7, some 8, []⟩)
    [] [("age", sampleStatRecord)] (some sampleRefStats)
    0 1 (some 42)
    ⟨⟨some 1, some 2, some 3, some 4, []⟩, some ⟨some 5, some 6, some 7, some 8, []⟩⟩
    ⟨some 5, some 6, some 7, some 8, []⟩
    ⟨[], some sampleRefStats⟩ sampleRefStats sampleStatRecord
    ⟨0, some 42⟩
    5 6 7 8 5 50 20 3 21 12 30 40 42
    rfl rfl rfl rfl rfl rfl rfl rfl rfl rfl rfl rfl rfl rfl rfl rfl rfl

/-- Claim C8, counterexample: `TestMeanInNSigmas.check` with no reference
part in the metric result raises a ValueError ("Reference should be
present") that propagates out of the check, rather than capturing a
terminal ERROR result as the claim states. -/
theorem C8_counterexample :
    TestMeanInNSigmas.check ⟨"age", 2⟩
        ⟨[("age", ⟨none, none, some 10, none, none, none, none, none⟩)], none⟩ =
      .error "Reference should be present" :=
  rfl

/-- Claim C8 (amended): a missing required input at check time is not
uniformly captured as a terminal ERROR. Captured ERROR results:
`TestMeanInNSigmas.check` when the column is absent from the current or
from the reference feature statistics, and a
`BaseFeatureDataQualityMetricsTest`-derived test when the column is
present but the computed value is None. Other outcomes: a
`BaseFeatureDataQualityMetricsTest`-derived test whose column is absent
from the current data returns status FAIL (not ERROR);
`TestMeanInNSigmas.check` and
`TestCorrelationChanges.calculate_value_for_test` raise a ValueError that
propagates when required reference data is absent; and
`TestMeanInNSigmas.check` raises a TypeError that propagates when the
current mean, the reference mean, or the reference std is None. -/
theorem C8_missing_input (t tB t' tC : TestMeanInNSigmas)
    (r rB r' rC : DataQualityMetricsResult) (rs rsB rsC : FeaturesStats)
    (stB stC rstC : FeatureQualityStats)
    (cd : ℚ) (rc : DataQualityCorrelationMetricsResult)
    (name2 col2 : String) (r2 : DataQualityMetricsResult)
    (st2 : FeatureQualityStats) (c2 : TestValueCondition) (d2 : String)
    (name3 col3 : String) (r3 : DataQualityMetricsResult)
    (rc3 : Except String TestValueCondition) (v3 : Option ℚ) (d3 : String)
    (h1 : r.reference_features_stats = some rs)
    (h2 : r.features_stats.lookup t.column_name = none)
    (hB1 : rB.reference_features_stats = some rsB)
    (hB2 : rB.features_stats.lookup tB.column_name = some stB)
    (hB3 : rsB.lookup tB.column_name = none)
    (h3 : r'.reference_features_stats = none)
    (h4 : rc.reference = none)
    (h5 : r2.features_stats.lookup col2 = some st2)
    (h6 : r3.features_stats.lookup col3 = none)
    (hC1 : rC.reference_features_stats = some rsC)
    (hC2 : rC.features_stats.lookup tC.column_name = some stC)
    (hC3 : rsC.lookup tC.column_name = some rstC)
    (hD : stC.mean = none ∨ rstC.mean = none ∨ rstC.std = none) :
    (TestMeanInNSigmas.check t r).map TestResult.status = .ok .ERROR
    ∧ (TestMeanInNSigmas.check tB rB).map TestResult.status = .ok .ERROR
    ∧ BaseFeatureDataQualityMetricsTest.check name2 col2 r2 (.ok c2) none d2 =
      .ok { name := name2, description := noValueForFeatureMsg col2,
            status := .ERROR, groups := [] }
    ∧ BaseFeatureDataQualityMetricsTest.check name3 col3 r3 rc3 v3 d3 =
      .ok { name := name3, description := featureNotFoundMsg col3,
            status := .FAIL, groups := [] }
    ∧ TestMeanInNSigmas.check t' r' = .error "Reference should be present"
    ∧ TestCorrelationChanges.calculate_value_for_test cd rc =
      .error "Reference should be present"
    ∧ TestMeanInNSigmas.check tC rC = .error "TypeError: unsupported operand for None" := by
  refine ⟨?_, ?_, ?_, ?_, ?_, ?_, ?_⟩
  · simp [TestMeanInNSigmas.check, h1, h2, Except.map]
  · simp [TestMeanInNSigmas.check, hB1, hB2, hB3, Except.map]
  · simp [BaseFeatureDataQualityMetricsTest.check, h5, baseCheckValue,
      TestResult.mark_as_error, TestResult.set_status, Option.getD]
  · simp [BaseFeatureDataQualityMetricsTest.check, h6,
      TestResult.mark_as_fail, TestResult.set_status, Option.getD]
  · simp [TestMeanInNSigmas.check, h3]
  · simp [TestCorrelationChanges.calculate_value_for_test, h4]
  · simp only [TestMeanInNSigmas.check, hC1, hC2, hC3]
    rcases hD with h | h | h
    · simp [h]
    · cases hm : stC.mean <;> simp [h, hm]
    · cases hm : stC.mean <;> cases hrm : rstC.mean <;> simp [h, hm, hrm]

/-- Claim C8, witness. -/
theorem C8_witness :
    (TestMeanInNSigmas.check ⟨"x", 2⟩
        ⟨[("age", ⟨none, none, some 10, none, none, none, none, none⟩)],
         some [("age", ⟨none, none, some 10, some 2, none, none, none, none⟩)]⟩).map
        TestResult.status = .ok .ERROR
    ∧ (TestMeanInNSigmas.check ⟨"age", 2⟩
        ⟨[("age", ⟨none, none, some 10, none, none, none, none, none⟩)], some []⟩).map
        TestResult.status = .ok .ERROR
    ∧ BaseFeatureDataQualityMetricsTest.check "Mean Value" "age"
        ⟨[("age", ⟨none, none, none, none, none, none, none, none⟩)], none⟩
        (.ok emptyCondition) none "" =
      .ok { name := "Mean Value", description := noValueForFeatureMsg "age",
            status := .ERROR, groups := [] }
    ∧ BaseFeatureDataQualityMetricsTest.check "Min Value" "region"
        ⟨[], none⟩ (.ok emptyCondition) none "" =
      .ok { name := "Min Value", description := featureNotFoundMsg "region",
            status := .FAIL, groups := [] }
    ∧ TestMeanInNSigmas.check ⟨"age", 2⟩
        ⟨[("age", ⟨none, none, some 10, none, none, none, none, none⟩)], none⟩ =
      .error "Reference should be present"
    ∧ TestCorrelationChanges.calculate_value_for_test (1/4)
        ⟨⟨none, none, none, none, [[1]]⟩, none⟩ =
      .error "Reference should be present"
    ∧ TestMeanInNSigmas.check ⟨"age", 2⟩
        ⟨[("age", ⟨none, none, none, none, none, none, none, none⟩)],
         some [("age", ⟨none, none, some 10, some 2, none, none, none, none⟩)]⟩ =
      .error "TypeError: unsupported operand for None" :=
  C8_missing_input ⟨"x", 2⟩ ⟨"age", 2⟩ ⟨"age", 2⟩ ⟨"age", 2⟩
    ⟨[("age", ⟨none, none, some 10, none, none, none, none, none⟩)],
     some [("age", ⟨none, none, some 10, some 2, none, none, none, none⟩)]⟩
    ⟨[("age", ⟨none, none, some 10, none, none, none, none, none⟩)], some []⟩
    ⟨[("age", ⟨none, none, some 10, none, none, none, none, none⟩)], none⟩
    ⟨[("age", ⟨none, none, none, none, none, none, none, none⟩)],
     some [("age", ⟨none, none, some 10, some 2, none, none, none, none⟩)]⟩
    [("age", ⟨none, none, some 10, some 2, none, none, none, none⟩)]
    []
    [("age", ⟨none, none, some 10, some 2, none, none, none, none⟩)]
    ⟨none, none, some 10, none, none, none, none, none⟩
    ⟨none, none, none, none, none, none, none, none⟩
    ⟨none, none, some 10, some 2, none, none, none, none⟩
    (1/4) ⟨⟨none, none, none, none, [[1]]⟩, none⟩
    "Mean Value" "age"
    ⟨[("age", ⟨none, none, none, none, none, none, none, none⟩)], none⟩
    ⟨none, none, none, none, none, none, none, none⟩ emptyCondition ""
    "Min Value" "region" ⟨[], none⟩ (.ok emptyCondition) none ""
    rfl rfl rfl rfl rfl rfl rfl rfl rfl rfl rfl rfl (Or.inl rfl)

end Evidently
